import Mathlib

/-
Shallow embedding of the jthorniley/clock repository (src/clock/models.py,
src/clock/drawing.py, src/clock/__init__.py) and proofs about it.

States are pairs (p, dotp) of reals; machine floats are modelled as real
numbers; fallible code (Python exceptions) is modelled with Option. The
external ODE solver scipy.integrate.solve_ivp is not part of the repository,
so it is modelled as an abstract solver argument producing a result record
with the documented fields (t, y, status, success).
-/

noncomputable section

namespace Clock

/-- Derivative of the plain pendulum state, from models.Pendulum.__call__:
given time t (unused: the system is autonomous) and state y = (p, dotp),
the code computes ddotp = -p - k*dotp and returns [dotp, ddotp].
k is the drag coefficient self.k set in models.Pendulum.__init__. -/
def Models.Pendulum.call (k : ℝ) (t : ℝ) (y : ℝ × ℝ) : ℝ × ℝ :=
  (y.2, -y.1 - k * y.2)

/-- Inner helper peak(offset) of models.PendulumWithEscapement.escapement:
d = (-p-offset)**2 + (dotp-offset)**2; returns np.exp(-20*d). -/
def Models.escapementPeak (p dotp offset : ℝ) : ℝ :=
  Real.exp (-20 * ((-p - offset) ^ 2 + (dotp - offset) ^ 2))

/-- Escapement forcing, from models.PendulumWithEscapement.escapement:
returns peak(0.4) - peak(-0.4). -/
def Models.escapement (p dotp : ℝ) : ℝ :=
  Models.escapementPeak p dotp 0.4 - Models.escapementPeak p dotp (-0.4)

/-- Derivative of the escapement pendulum, from
models.PendulumWithEscapement.__call__: the base-class acceleration
(Pendulum.call).2 plus q * escapement(*y), returned as [y[1], ddotp].
q is the escapement gain self.q. -/
def Models.PendulumWithEscapement.call (k q : ℝ) (t : ℝ) (y : ℝ × ℝ) : ℝ × ℝ :=
  (y.2, (Models.Pendulum.call k t y).2 + q * Models.escapement y.1 y.2)

/-- Uniform grid np.linspace(start, stop, num) with endpoint=True, in exact
real arithmetic: num points start + (stop-start)*i/(num-1) for i < num
(for num = 1 the division by zero is irrelevant since i = 0, matching
numpy's single-point result [start]; for num = 0 the list is empty). -/
def Np.linspace (start stop : ℝ) (num : ℕ) : List ℝ :=
  (List.range num).map (fun i : ℕ => start + (stop - start) * (i : ℝ) / ((num : ℝ) - 1))

/-- Result record of scipy.integrate.solve_ivp restricted to the fields the
repository reads or the spec mentions: time points t, solution states y
(one state per time point: the columns of the 2 x n_points array), and the
solver's status / success report. -/
structure Scipy.IVPResult where
  t : List ℝ
  y : List (ℝ × ℝ)
  status : Int
  success : Bool

/-- Type of the external ODE solver collaborator, modelling the call
scipy.integrate.solve_ivp(fun, t_span, y0, t_eval=t_eval): it receives the
derivative function, the integration span, the initial state and the
evaluation grid, and produces a result record. -/
def Scipy.Solver : Type :=
  (ℝ → ℝ × ℝ → ℝ × ℝ) → ℝ × ℝ → ℝ × ℝ → List ℝ → Scipy.IVPResult

/-- Evaluation grid built by models.Pendulum.solve:
t_eval = np.linspace(0.0, t, int(np.floor(t*freq+1))). Python's int()
truncation of the already-floored float is Int.floor; Int.toNat matches it
for the nonnegative values that arise from t, freq > 0. -/
def Models.Pendulum.tEval (t freq : ℝ) : List ℝ :=
  Np.linspace 0 t (Int.toNat ⌊t * freq + 1⌋)

/-- Body of models.Pendulum.solve: builds t_eval and returns
solve_ivp(self, [0.0, t], init, t_eval=t_eval) directly, with no inspection
of the returned object. The derivative function f stands for self (either
Pendulum.call k or PendulumWithEscapement.call k q), and the external
solve_ivp is the solver argument. -/
def Models.Pendulum.solve (solver : Scipy.Solver) (f : ℝ → ℝ × ℝ → ℝ × ℝ)
    (init : ℝ × ℝ) (t freq : ℝ) : Scipy.IVPResult :=
  solver f (0, t) init (Models.Pendulum.tEval t freq)

/-- Sampled solution data consumed by the animation layer: the t and y
fields of the solve_ivp result (y as the list of state columns). -/
structure SampledSolution where
  t : List ℝ
  y : List (ℝ × ℝ)

/-- Drawing state of drawing.Trajectory: the stored solution object and the
center of the current-position marker Circle. The arrows, labels and the
plotted line are pure rendering output with no further reads, so they carry
no state the claims mention. -/
structure Drawing.Trajectory where
  solution : SampledSolution
  marker : ℝ × ℝ

/-- Construction drawing.Trajectory.__init__: stores the solution and
creates the marker Circle at xy = solution.y[:, 0]. Indexing column 0 of a
zero-sample array raises IndexError, modelled as none. -/
def Drawing.Trajectory.init (solution : SampledSolution) : Option Drawing.Trajectory :=
  match solution.y.head? with
  | some y0 => some { solution := solution, marker := y0 }
  | none => none

/-- Generator drawing.Trajectory.__call__: yields the columns of
solution.y in order; modelled as the list of remaining yields of a fresh
generator. -/
def Drawing.Trajectory.call (tr : Drawing.Trajectory) : List (ℝ × ℝ) :=
  tr.solution.y

/-- drawing.Trajectory.set_marker: recenters the marker Circle. -/
def Drawing.Trajectory.set_marker (tr : Drawing.Trajectory) (position : ℝ × ℝ) :
    Drawing.Trajectory :=
  { tr with marker := position }

/-- Drawing state of drawing.Pendulum: the angle attribute _sigma behind
the sigma property, the endpoints of the bar Line2D, the center of the
weight Circle, and a slot for a dynamically added plain attribute named
angle (Python object attribute assignment creates it; the class defines no
such property, only sigma). -/
structure Drawing.Pendulum where
  sigma : ℝ
  bar : (ℝ × ℝ) × (ℝ × ℝ)
  weight : ℝ × ℝ
  angle : Option ℝ

/-- Construction drawing.Pendulum.__init__: _sigma = 0.0, bar Line2D at the
origin, weight Circle at (0, 0); no angle attribute exists yet. -/
def Drawing.Pendulum.init : Drawing.Pendulum :=
  { sigma := 0, bar := ((0, 0), (0, 0)), weight := (0, 0), angle := none }

/-- Setter of the sigma property of drawing.Pendulum: stores the value and
moves the bar and weight to vector = 1.5 * [[0, 0], [sin sigma, -cos sigma]]
with 0.5 added to the second coordinates. This is the only code that moves
the drawn pendulum arm. -/
def Drawing.Pendulum.setSigma (d : Drawing.Pendulum) (value : ℝ) : Drawing.Pendulum :=
  { d with
    sigma := value
    bar := ((0, 0 + 0.5), (Real.sin value * 1.5, -Real.cos value * 1.5 + 0.5))
    weight := (Real.sin value * 1.5, -Real.cos value * 1.5 + 0.5) }

/-- Per-player animation state of PendulumAnimation in clock/__init__.py:
the solve result sol, the trajectory drawing, the pendulum drawing and the
current generator self.state_iterator (its remaining yields). -/
structure PendulumAnimation where
  sol : SampledSolution
  trajectory : Drawing.Trajectory
  pendulum : Drawing.Pendulum
  state_iterator : List (ℝ × ℝ)

/-- PendulumAnimation.__init__ after the self.model.solve call (the solve
itself is delegated to the external solver, see Models.Pendulum.solve):
builds the Trajectory drawing over sol (which fails on a zero-sample
solution), a fresh drawing.Pendulum, and state_iterator = self.trajectory().
none models the constructor raising. -/
def PendulumAnimation.init (sol : SampledSolution) : Option PendulumAnimation :=
  match Drawing.Trajectory.init sol with
  | some tr =>
      some { sol := sol, trajectory := tr, pendulum := Drawing.Pendulum.init,
             state_iterator := tr.call }
  | none => none

/-- The try/except pull of PendulumAnimation.update: state =
next(self.state_iterator), and on StopIteration the iterator is restarted
from self.trajectory() and pulled once more; a second StopIteration (empty
trajectory) would propagate, modelled as none. Returns the pulled state and
the remaining iterator. -/
def PendulumAnimation.pullNext (a : PendulumAnimation) :
    Option ((ℝ × ℝ) × List (ℝ × ℝ)) :=
  match a.state_iterator with
  | state :: rest => some (state, rest)
  | [] =>
    match a.trajectory.call with
    | state :: rest => some (state, rest)
    | [] => none

/-- PendulumAnimation.update: pull the next state, then
self.trajectory.set_marker(state) and self.pendulum.angle = state[0]. The
assignment writes a plain attribute named angle on the drawing object
(drawing.Pendulum defines a property named sigma, not angle), so only the
angle slot changes on the drawing. Returns the pulled state together with
the updated animation. -/
def PendulumAnimation.update (a : PendulumAnimation) :
    Option ((ℝ × ℝ) × PendulumAnimation) :=
  match a.pullNext with
  | some (state, rest) =>
      some (state,
        { a with
          state_iterator := rest
          trajectory := a.trajectory.set_marker state
          pendulum := { a.pendulum with angle := some state.1 } })
  | none => none

/-- Iterated animation ticks: run a n performs n+1 updates in sequence and
returns the state pulled by the last one with the final animation state
(so run a (j-1) is the last of j pulls). -/
def PendulumAnimation.run (a : PendulumAnimation) :
    ℕ → Option ((ℝ × ℝ) × PendulumAnimation)
  | 0 => a.update
  | n + 1 =>
    match a.update with
    | some (_, b) => b.run n
    | none => none

/-- Concrete two-sample solution used to instantiate proved theorems. -/
def sampleSol : SampledSolution :=
  { t := [0, 1], y := [(1, 0), (0, 1)] }

/-- The animation PendulumAnimation.init builds over sampleSol. -/
def sampleAnim : PendulumAnimation :=
  { sol := sampleSol
    trajectory := { solution := sampleSol, marker := (1, 0) }
    pendulum := Drawing.Pendulum.init
    state_iterator := [(1, 0), (0, 1)] }

/-- State of sampleAnim after three ticks (one full loop and a restart). -/
def sampleAnimAfter3 : PendulumAnimation :=
  { sol := sampleSol
    trajectory := { solution := sampleSol, marker := (1, 0) }
    pendulum := { sigma := 0, bar := ((0, 0), (0, 0)), weight := (0, 0), angle := some 1 }
    state_iterator := [(0, 1)] }

/-- Concrete one-sample solution exhibiting the stale pendulum drawing. -/
def bugSol : SampledSolution :=
  { t := [0], y := [(1, 0)] }

/-- The animation PendulumAnimation.init builds over bugSol. -/
def bugAnim : PendulumAnimation :=
  { sol := bugSol
    trajectory := { solution := bugSol, marker := (1, 0) }
    pendulum := Drawing.Pendulum.init
    state_iterator := [(1, 0)] }

/-- State of bugAnim after one tick. -/
def bugAnimAfter1 : PendulumAnimation :=
  { sol := bugSol
    trajectory := { solution := bugSol, marker := (1, 0) }
    pendulum := { sigma := 0, bar := ((0, 0), (0, 0)), weight := (0, 0), angle := some 1 }
    state_iterator := [] }

/-- Concrete non-success solver outcome (solve_ivp reporting failure). -/
def Scipy.failedResult : Scipy.IVPResult :=
  { t := [], y := [], status := -1, success := false }

/-- Concrete solver that always reports failure. -/
def Scipy.failSolver : Scipy.Solver :=
  fun _ _ _ _ => Scipy.failedResult

/-- Concrete solver satisfying the documented solve_ivp success contract:
it echoes the evaluation grid and produces one state per grid point. -/
def Scipy.constSolver : Scipy.Solver :=
  fun _ _ y0 te => { t := te, y := te.map (fun _ => y0), status := 0, success := true }

end Clock

open Clock


/-- Helper: what PendulumAnimation.init = some a says about a. -/
theorem Clock.PendulumAnimation.init_some (s : SampledSolution) (a : PendulumAnimation)
    (h : PendulumAnimation.init s = some a) :
    s.y ≠ [] ∧ a.sol = s ∧ a.trajectory.solution = s ∧
      a.state_iterator = s.y ∧ a.pendulum = Drawing.Pendulum.init := by
  cases hy : s.y with
  | nil =>
    simp only [PendulumAnimation.init, Drawing.Trajectory.init, hy] at h
    simp at h
  | cons y0 ys =>
    simp only [PendulumAnimation.init, Drawing.Trajectory.init, hy, List.head?] at h
    rw [Option.some.injEq] at h
    subst h
    refine ⟨by simp [hy], rfl, rfl, ?_, rfl⟩
    simp only [Drawing.Trajectory.call, hy]

/-- Helper: an empty solution makes PendulumAnimation.init fail. -/
theorem Clock.PendulumAnimation.init_empty (s : SampledSolution) (h : s.y = []) :
    PendulumAnimation.init s = none := by
  simp only [PendulumAnimation.init, Drawing.Trajectory.init, h]
  rfl

/-- Helper: one update of an animation whose iterator holds the suffix of
the solution states from position m pulls column m % N and leaves an
iterator continuing from m % N + 1; the stored solution, the sigma angle,
the bar and the weight of the pendulum drawing are untouched. -/
theorem Clock.PendulumAnimation.update_drop (s : SampledSolution) (a : PendulumAnimation)
    (m : ℕ) (hm : m ≤ s.y.length) (hne : s.y ≠ [])
    (htr : a.trajectory.solution = s) (hit : a.state_iterator = s.y.drop m) :
    ∃ p b, s.y[m % s.y.length]? = some p ∧
      a.update = some (p, b) ∧
      b.sol = a.sol ∧
      b.trajectory.solution = s ∧
      b.trajectory.marker = p ∧
      b.pendulum.sigma = a.pendulum.sigma ∧
      b.pendulum.bar = a.pendulum.bar ∧
      b.pendulum.weight = a.pendulum.weight ∧
      b.pendulum.angle = some p.1 ∧
      b.state_iterator = s.y.drop (m % s.y.length + 1) := by
  rcases lt_or_eq_of_le hm with hlt | heq
  · have hmod : m % s.y.length = m := Nat.mod_eq_of_lt hlt
    have hdrop : s.y.drop m = s.y[m] :: s.y.drop (m + 1) :=
      List.drop_eq_getElem_cons hlt
    refine ⟨s.y[m],
      { a with
        state_iterator := s.y.drop (m + 1)
        trajectory := a.trajectory.set_marker (s.y[m])
        pendulum := { a.pendulum with angle := some (s.y[m]).1 } },
      ?_, ?_, rfl, htr, rfl, rfl, rfl, rfl, rfl, ?_⟩
    · rw [hmod]
      exact List.getElem?_eq_getElem hlt
    · simp only [PendulumAnimation.update, PendulumAnimation.pullNext, hit, hdrop]
    · rw [hmod]
  · subst heq
    have hmod : s.y.length % s.y.length = 0 := Nat.mod_self _
    have hdrop : s.y.drop s.y.length = [] := List.drop_length s.y
    cases hy : s.y with
    | nil => exact absurd hy hne
    | cons y0 ys =>
      refine ⟨y0,
        { a with
          state_iterator := ys
          trajectory := a.trajectory.set_marker y0
          pendulum := { a.pendulum with angle := some y0.1 } },
        ?_, ?_, rfl, htr, rfl, rfl, rfl, rfl, rfl, ?_⟩
      · simp
      · simp only [PendulumAnimation.update, PendulumAnimation.pullNext, hit,
          Drawing.Trajectory.call, htr, hy, List.drop_length]
      · simp [hy]

/-- Helper: after k+1 ticks from iterator position m the pulled state is
column (m + k) % N and the iterator continues from (m + k) % N + 1; the
stored solution, the sigma angle and the bar of the pendulum drawing are
untouched throughout. -/
theorem Clock.PendulumAnimation.run_drop (s : SampledSolution) (hne : s.y ≠ [])
    (k : ℕ) :
    ∀ (a : PendulumAnimation) (m : ℕ), m ≤ s.y.length →
      a.trajectory.solution = s → a.state_iterator = s.y.drop m →
      ∃ p b, s.y[(m + k) % s.y.length]? = some p ∧
        a.run k = some (p, b) ∧
        b.sol = a.sol ∧
        b.trajectory.solution = s ∧
        b.trajectory.marker = p ∧
        b.pendulum.sigma = a.pendulum.sigma ∧
        b.pendulum.bar = a.pendulum.bar ∧
        b.state_iterator = s.y.drop ((m + k) % s.y.length + 1) := by
  induction k with
  | zero =>
    intro a m hm htr hit
    obtain ⟨p, b, h1, h2, h3, h4, h5, h6, h7, _, _, h10⟩ :=
      PendulumAnimation.update_drop s a m hm hne htr hit
    exact ⟨p, b, by simpa using h1, by simpa [PendulumAnimation.run] using h2,
      h3, h4, h5, h6, h7, by simpa using h10⟩
  | succ k ih =>
    intro a m hm htr hit
    obtain ⟨p0, b0, _, h2, h3, h4, _, h6, h7, _, _, h10⟩ :=
      PendulumAnimation.update_drop s a m hm hne htr hit
    have hlen : 0 < s.y.length := List.length_pos.mpr hne
    have hm1 : m % s.y.length + 1 ≤ s.y.length := Nat.mod_lt _ hlen
    obtain ⟨p, b, g1, g2, g3, g4, g5, g6, g7, g10⟩ :=
      ih b0 (m % s.y.length + 1) hm1 h4 h10
    have hmod : (m % s.y.length + 1 + k) % s.y.length = (m + (k + 1)) % s.y.length := by
      conv_lhs => rw [Nat.add_assoc, Nat.add_mod,
        Nat.mod_mod_of_dvd m (dvd_refl s.y.length), ← Nat.add_mod]
      rw [Nat.add_comm 1 k]
    refine ⟨p, b, ?_, ?_, ?_, g4, g5, ?_, ?_, ?_⟩
    · rw [← hmod]
      exact g1
    · simp only [PendulumAnimation.run]
      rw [h2]
      exact g2
    · rw [g3, h3]
    · rw [g6, h6]
    · rw [g7, h7]
    · rw [← hmod]
      exact g10

/-- Helper: one update never touches the stored solution object. -/
theorem Clock.PendulumAnimation.update_sol (a : PendulumAnimation) (p : ℝ × ℝ)
    (b : PendulumAnimation) (h : a.update = some (p, b)) :
    b.sol = a.sol ∧ b.trajectory.solution = a.trajectory.solution := by
  simp only [PendulumAnimation.update] at h
  cases hp : a.pullNext with
  | none =>
    rw [hp] at h
    exact absurd h (by simp)
  | some pr =>
    obtain ⟨state, rest⟩ := pr
    rw [hp] at h
    rw [Option.some.injEq, Prod.mk.injEq] at h
    obtain ⟨-, h2⟩ := h
    subst h2
    exact ⟨rfl, rfl⟩

/-- Helper: any number of ticks never touches the stored solution object. -/
theorem Clock.PendulumAnimation.run_sol (n : ℕ) :
    ∀ (a : PendulumAnimation) (p : ℝ × ℝ) (b : PendulumAnimation),
      a.run n = some (p, b) →
        b.sol = a.sol ∧ b.trajectory.solution = a.trajectory.solution := by
  induction n with
  | zero =>
    intro a p b h
    simp only [PendulumAnimation.run] at h
    exact PendulumAnimation.update_sol a p b h
  | succ n ih =>
    intro a p b h
    simp only [PendulumAnimation.run] at h
    cases hu : a.update with
    | none =>
      rw [hu] at h
      exact absurd h (by simp)
    | some q =>
      obtain ⟨p0, b0⟩ := q
      rw [hu] at h
      obtain ⟨h1, h2⟩ := ih b0 p b h
      obtain ⟨g1, g2⟩ := PendulumAnimation.update_sol a p0 b0 hu
      exact ⟨h1.trans g1, h2.trans g2⟩

/-- C7: the plain pendulum model returns the derivative pair (v, a) with
a = -p - drag * v, and the result does not depend on t (autonomous system). -/
theorem c7_plain_model_derivative (k t t2 : ℝ) (y : ℝ × ℝ) :
    Models.Pendulum.call k t y = (y.2, -y.1 - k * y.2) ∧
    Models.Pendulum.call k t y = Models.Pendulum.call k t2 y :=
  ⟨rfl, rfl⟩

/-- C8: the escapement forcing function of the code is odd under joint
negation of its arguments, and in particular vanishes at the origin. -/
theorem c8_escapement_odd :
    (∀ p v : ℝ, Models.escapement (-p) (-v) = -Models.escapement p v) ∧
    Models.escapement 0 0 = 0 := by
  constructor
  · intro p v
    simp only [Models.escapement, Models.escapementPeak]
    have h1 : -20 * ((- -p - (0.4 : ℝ)) ^ 2 + (-v - 0.4) ^ 2) =
        -20 * ((-p - (-0.4 : ℝ)) ^ 2 + (v - -0.4) ^ 2) := by ring
    have h2 : -20 * ((- -p - (-0.4 : ℝ)) ^ 2 + (-v - -0.4) ^ 2) =
        -20 * ((-p - (0.4 : ℝ)) ^ 2 + (v - 0.4) ^ 2) := by ring
    rw [h1, h2]
    ring
  · simp only [Models.escapement, Models.escapementPeak]
    have h : -20 * ((-(0 : ℝ) - 0.4) ^ 2 + ((0 : ℝ) - 0.4) ^ 2) =
        -20 * ((-(0 : ℝ) - (-0.4)) ^ 2 + ((0 : ℝ) - (-0.4)) ^ 2) := by ring
    rw [h, sub_self]

/-- C2 counterexample: at (p, v) = (0, 2/5) the code's escapement value is
exp(-16/5) - exp(-16), which is positive, while the claimed formula
tanh(5p) * exp(-(5pv-1)^2) evaluates to 0. -/
theorem c2_counterexample :
    Models.escapement 0 (2 / 5) ≠
      Real.tanh (5 * 0) * Real.exp (-(5 * 0 * (2 / 5) - 1) ^ 2) := by
  have hrhs : Real.tanh (5 * 0) * Real.exp (-(5 * 0 * (2 / 5) - 1) ^ 2) = 0 := by
    rw [mul_zero, Real.tanh_zero, zero_mul]
  rw [hrhs]
  simp only [Models.escapement, Models.escapementPeak]
  have h1 : -20 * ((-(0 : ℝ) - 0.4) ^ 2 + ((2 / 5 : ℝ) - 0.4) ^ 2) = -16 / 5 := by
    norm_num
  have h2 : -20 * ((-(0 : ℝ) - (-0.4)) ^ 2 + ((2 / 5 : ℝ) - (-0.4)) ^ 2) = -16 := by
    norm_num
  rw [h1, h2]
  have hlt : Real.exp (-16) < Real.exp (-16 / 5) := Real.exp_lt_exp.mpr (by norm_num)
  exact sub_ne_zero_of_ne hlt.ne'

/-- C2 amended: for every p and v the escapement forcing of the code equals
the difference of two Gaussian peaks centered at offsets 0.4 and -0.4 in the
combined metric (p+offset)^2 + (v-offset)^2, namely
exp(-20*((p+2/5)^2+(v-2/5)^2)) - exp(-20*((p-2/5)^2+(v+2/5)^2)). -/
theorem c2_amended_escapement_formula (p v : ℝ) :
    Models.escapement p v =
      Real.exp (-20 * ((p + 2 / 5) ^ 2 + (v - 2 / 5) ^ 2)) -
        Real.exp (-20 * ((p - 2 / 5) ^ 2 + (v + 2 / 5) ^ 2)) := by
  simp only [Models.escapement, Models.escapementPeak]
  congr 1
  · congr 1
    ring
  · congr 1
    ring

/-- C10: with escapement gain zero, the with-escapement model's derivative
agrees with the plain model's derivative of the same drag on every time and
state. -/
theorem c10_zero_gain_agrees_with_plain (k t : ℝ) (y : ℝ × ℝ) :
    Models.PendulumWithEscapement.call k 0 t y = Models.Pendulum.call k t y := by
  simp only [Models.PendulumWithEscapement.call, Models.Pendulum.call,
    zero_mul, add_zero]

/-- C3 counterexample: when the external solver reports non-success, the
code's solve returns that very non-success result object to the caller
(success = false), instead of reporting a solve failure. -/
theorem c3_counterexample :
    Models.Pendulum.solve Scipy.failSolver (Models.Pendulum.call 0) (0, 1) 1 1 =
      Scipy.failedResult ∧
    (Models.Pendulum.solve Scipy.failSolver (Models.Pendulum.call 0) (0, 1) 1 1).success =
      false :=
  ⟨rfl, rfl⟩

/-- C3 amended: for every solver outcome, solve forwards the solver's result
object unchanged (in particular its success flag): no failure check is
performed, and a non-success result is visible to the caller only through
the returned object's own status fields. -/
theorem c3_amended_result_passed_through (solver : Scipy.Solver)
    (f : ℝ → ℝ × ℝ → ℝ × ℝ) (init : ℝ × ℝ) (t freq : ℝ) :
    Models.Pendulum.solve solver f init t freq =
      solver f (0, t) init (Models.Pendulum.tEval t freq) ∧
    (Models.Pendulum.solve solver f init t freq).success =
      (solver f (0, t) init (Models.Pendulum.tEval t freq)).success :=
  ⟨rfl, rfl⟩

/-- C6 counterexample: at duration 3/2 and frequency 1 the evaluation grid
is [0, 3/2]: it does have floor(duration*freq)+1 = 2 points from 0 to the
duration, but the consecutive spacing is 3/2, not 1/freq = 1 (the deviation
is 1/2, far beyond floating-point tolerance). -/
theorem c6_counterexample :
    Models.Pendulum.tEval (3 / 2) 1 = [0, 3 / 2] ∧
    ¬ List.Chain' (fun x1 x2 => x2 - x1 = 1 / 1) (Models.Pendulum.tEval (3 / 2) 1) := by
  have hfloor : ⌊(3 / 2 : ℝ) * 1 + 1⌋ = 2 := by
    rw [show (3 / 2 : ℝ) * 1 + 1 = 5 / 2 by norm_num, Int.floor_eq_iff]
    constructor <;> norm_num
  have hnum : Int.toNat ⌊(3 / 2 : ℝ) * 1 + 1⌋ = 2 := by
    rw [hfloor]
    rfl
  have hg : Models.Pendulum.tEval (3 / 2) 1 = [0, 3 / 2] := by
    unfold Models.Pendulum.tEval Np.linspace
    rw [hnum]
    norm_num [List.range_succ]
  refine ⟨hg, ?_⟩
  rw [hg]
  intro hch
  have h1 := (List.chain'_cons.mp hch).1
  norm_num at h1

/-- C6 amended: for duration t > 0 and frequency freq > 0 such that
t * freq is a positive integer m, the evaluation grid of solve is exactly
the uniform grid i / freq for i = 0..m: it has floor(t*freq)+1 = m+1
points, starts at 0, ends at t, is strictly increasing with consecutive
spacing exactly 1/freq, and for any solver meeting the documented solve_ivp
output contract the returned object carries this grid as its time array
with one state per grid point in the same order. (Without the integrality
of t * freq the spacing is t / floor(t*freq), which differs from 1/freq:
see the counterexample at t = 3/2, freq = 1.) -/
theorem c6_amended_uniform_grid (t freq : ℝ) (m : ℕ) (ht : 0 < t) (hf : 0 < freq)
    (hm1 : 1 ≤ m) (hm : (m : ℝ) = t * freq)
    (solver : Scipy.Solver)
    (hsolver : ∀ f span y0 te, (solver f span y0 te).t = te ∧
        (solver f span y0 te).y.length = te.length) :
    Models.Pendulum.tEval t freq =
      (List.range (m + 1)).map (fun i : ℕ => (i : ℝ) / freq) ∧
    (Models.Pendulum.tEval t freq).length = m + 1 ∧
    (Models.Pendulum.tEval t freq).head? = some 0 ∧
    (Models.Pendulum.tEval t freq).getLast? = some t ∧
    List.Chain' (fun x1 x2 => x1 < x2 ∧ x2 - x1 = 1 / freq)
      (Models.Pendulum.tEval t freq) ∧
    (∀ f init, (Models.Pendulum.solve solver f init t freq).t =
        Models.Pendulum.tEval t freq ∧
      (Models.Pendulum.solve solver f init t freq).y.length =
        (Models.Pendulum.tEval t freq).length) := by
  have hfne : freq ≠ 0 := ne_of_gt hf
  have hfloor : ⌊t * freq + 1⌋ = (m : ℤ) + 1 := by
    rw [← hm, show ((m : ℝ) + 1) = ((m + 1 : ℕ) : ℝ) by push_cast; ring,
      Int.floor_natCast]
    push_cast
    ring
  have hnum : Int.toNat ⌊t * freq + 1⌋ = m + 1 := by
    rw [hfloor]
    omega
  have hgrid : Models.Pendulum.tEval t freq =
      (List.range (m + 1)).map (fun i : ℕ => (i : ℝ) / freq) := by
    unfold Models.Pendulum.tEval Np.linspace
    rw [hnum]
    refine List.map_congr_left ?_
    intro i hi
    have hden : ((m + 1 : ℕ) : ℝ) - 1 = (m : ℝ) := by
      push_cast
      ring
    rw [hden, hm]
    field_simp
    ring
  refine ⟨hgrid, ?_, ?_, ?_, ?_, ?_⟩
  · rw [hgrid]
    simp
  · rw [hgrid, List.range_succ_eq_map, List.map_cons]
    simp
  · rw [hgrid, List.range_succ, List.map_append, List.map_cons, List.map_nil,
      List.getLast?_concat, hm, mul_div_cancel_right₀ t hfne]
  · rw [hgrid, List.chain'_map, List.chain'_range_succ]
    intro i hi
    constructor
    · have hlt : (i : ℝ) < ((i + 1 : ℕ) : ℝ) := by exact_mod_cast Nat.lt_succ_self i
      exact (div_lt_div_iff_of_pos_right hf).mpr hlt
    · rw [div_sub_div_same, show ((i + 1 : ℕ) : ℝ) - (i : ℕ) = 1 by push_cast; ring]
  · intro f init
    exact ⟨(hsolver f (0, t) init (Models.Pendulum.tEval t freq)).1,
      (hsolver f (0, t) init (Models.Pendulum.tEval t freq)).2⟩

/-- C6 amended witness: the theorem instantiated at t = 1, freq = 2, m = 2
with a concrete solver meeting the contract; the grid evaluates to
[0, 1/2, 1]. -/
theorem c6_amended_witness : Models.Pendulum.tEval 1 2 = [0, 1 / 2, 1] := by
  have h := c6_amended_uniform_grid 1 2 2 (by norm_num) (by norm_num)
    (by norm_num) (by norm_num) Scipy.constSolver
    (fun f span y0 te => ⟨rfl, List.length_map te _⟩)
  rw [h.1]
  norm_num [List.range_succ]

/-- C1: evaluation at a failing input. The animation built over the
one-sample solution with state (1, 0) updates: the pulled state is (1, 0)
and the trajectory marker is moved to it, but the pendulum drawing's angle
property sigma (the value that positions the drawn arm) is left at its
initial 0, because update writes a dynamically created plain attribute
named angle instead of the sigma property; the bar of the drawn arm is
exactly the one drawn at construction. -/
theorem c1_drawn_arm_angle_not_updated :
    PendulumAnimation.init bugSol = some bugAnim ∧
    bugAnim.update = some ((1, 0), bugAnimAfter1) ∧
    bugAnimAfter1.trajectory.marker = (1, 0) ∧
    bugAnimAfter1.pendulum.angle = some 1 ∧
    bugAnimAfter1.pendulum.sigma = Drawing.Pendulum.init.sigma ∧
    bugAnimAfter1.pendulum.bar = Drawing.Pendulum.init.bar ∧
    bugAnimAfter1.pendulum.sigma ≠ (1, (0 : ℝ)).1 := by
  refine ⟨rfl, rfl, rfl, rfl, rfl, rfl, ?_⟩
  show (0 : ℝ) ≠ 1
  norm_num

/-- C4: a zero-sample sampled solution makes the animation constructor fail
(the marker creation indexes column 0 of the empty state array), and for
every animation that was successfully constructed no tick can ever fail:
update always produces a next state. -/
theorem c4_empty_solution_fatal_at_construction :
    (∀ s : SampledSolution, s.y = [] → PendulumAnimation.init s = none) ∧
    (∀ (s : SampledSolution) (a : PendulumAnimation),
        PendulumAnimation.init s = some a → ∀ n : ℕ, a.run n ≠ none) := by
  constructor
  · exact fun s h => PendulumAnimation.init_empty s h
  · intro s a h n
    obtain ⟨hne, -, htr, hit, -⟩ := PendulumAnimation.init_some s a h
    obtain ⟨p, b, -, h2, -⟩ :=
      PendulumAnimation.run_drop s hne n a 0 (Nat.zero_le _) htr (by simpa using hit)
    simp [h2]

/-- C4 witness: the empty solution is rejected at construction, and the
animation over the concrete two-sample solution survives four ticks. -/
theorem c4_witness :
    PendulumAnimation.init { t := [], y := [] } = none ∧
    sampleAnim.run 3 ≠ none :=
  ⟨c4_empty_solution_fatal_at_construction.1 { t := [], y := [] } rfl,
    c4_empty_solution_fatal_at_construction.2 sampleSol sampleAnim rfl 3⟩

/-- C5: for an animation constructed over a solution with N = s.y.length
samples, no pull ever fails (exhaustion restarts the iterator instead), the
(N+1)-th pulled value equals the first pulled value, and for every k and
every j with 1 <= j <= N the last of k*N + j pulls equals the last of j
pulls. -/
theorem c5_trajectory_player_restart_law (s : SampledSolution)
    (a : PendulumAnimation) (h : PendulumAnimation.init s = some a) :
    (∀ n : ℕ, a.run n ≠ none) ∧
    (a.run s.y.length).map Prod.fst = (a.run 0).map Prod.fst ∧
    (∀ k j : ℕ, 1 ≤ j → j ≤ s.y.length →
      (a.run (k * s.y.length + j - 1)).map Prod.fst =
        (a.run (j - 1)).map Prod.fst) := by
  obtain ⟨hne, -, htr, hit, -⟩ := PendulumAnimation.init_some s a h
  have hit0 : a.state_iterator = s.y.drop 0 := by simpa using hit
  have hrun : ∀ n : ℕ, ∃ p b, s.y[n % s.y.length]? = some p ∧
      a.run n = some (p, b) := by
    intro n
    obtain ⟨p, b, h1, h2, -⟩ :=
      PendulumAnimation.run_drop s hne n a 0 (Nat.zero_le _) htr hit0
    exact ⟨p, b, by simpa using h1, h2⟩
  have hlen : 0 < s.y.length := List.length_pos.mpr hne
  refine ⟨?_, ?_, ?_⟩
  · intro n
    obtain ⟨p, b, -, h2⟩ := hrun n
    simp [h2]
  · obtain ⟨p1, b1, e1, r1⟩ := hrun s.y.length
    obtain ⟨p0, b0, e0, r0⟩ := hrun 0
    rw [Nat.mod_self] at e1
    rw [Nat.zero_mod] at e0
    have hp : p1 = p0 := Option.some.inj (e1.symm.trans e0)
    rw [r1, r0, hp]
    rfl
  · intro k j hj1 hj2
    have hidx : (k * s.y.length + j - 1) % s.y.length = j - 1 := by
      rw [show k * s.y.length + j - 1 = (j - 1) + k * s.y.length by omega,
        Nat.add_mul_mod_self_right]
      exact Nat.mod_eq_of_lt (by omega)
    obtain ⟨p1, b1, e1, r1⟩ := hrun (k * s.y.length + j - 1)
    obtain ⟨p0, b0, e0, r0⟩ := hrun (j - 1)
    rw [hidx] at e1
    rw [Nat.mod_eq_of_lt (show j - 1 < s.y.length by omega)] at e0
    have hp : p1 = p0 := Option.some.inj (e1.symm.trans e0)
    rw [r1, r0, hp]
    rfl

/-- C5 witness: the theorem instantiated at the concrete two-sample
solution, with the loop-around equality at N = 2, the periodicity instance
k = 3, j = 2, and pull number 8 succeeding. -/
theorem c5_witness :
    PendulumAnimation.init sampleSol = some sampleAnim ∧
    sampleAnim.run 7 ≠ none ∧
    (sampleAnim.run 2).map Prod.fst = (sampleAnim.run 0).map Prod.fst ∧
    (sampleAnim.run (3 * 2 + 2 - 1)).map Prod.fst =
      (sampleAnim.run (2 - 1)).map Prod.fst := by
  have hc := c5_trajectory_player_restart_law sampleSol sampleAnim rfl
  exact ⟨rfl, hc.1 7, hc.2.1, hc.2.2 3 2 (by norm_num) (by decide)⟩

/-- C9: the sampled solution is never mutated after creation: constructing
the trajectory drawing stores the solution unchanged and iterates exactly
its states, recentring the marker leaves the stored solution alone, and any
number of animation ticks (pulls, restarts and marker updates) leaves both
the animation's solution and the trajectory's stored solution identical to
what they were, times and states included. -/
theorem c9_sampled_solution_never_mutated :
    (∀ (s : SampledSolution) (tr : Drawing.Trajectory),
        Drawing.Trajectory.init s = some tr → tr.solution = s ∧ tr.call = s.y) ∧
    (∀ (tr : Drawing.Trajectory) (p : ℝ × ℝ),
        (tr.set_marker p).solution = tr.solution) ∧
    (∀ (a : PendulumAnimation) (n : ℕ) (p : ℝ × ℝ) (b : PendulumAnimation),
        a.run n = some (p, b) →
          b.sol = a.sol ∧ b.trajectory.solution = a.trajectory.solution) := by
  refine ⟨?_, ?_, ?_⟩
  · intro s tr h
    cases hh : s.y.head? with
    | none =>
      rw [Drawing.Trajectory.init, hh] at h
      exact absurd h (by simp)
    | some y0 =>
      rw [Drawing.Trajectory.init, hh] at h
      rw [Option.some.injEq] at h
      subst h
      exact ⟨rfl, rfl⟩
  · intro tr p
    rfl
  · intro a n p b h
    exact PendulumAnimation.run_sol n a p b h

/-- C9 witness: three ticks on the concrete animation (including a restart)
leave the stored solution identical. -/
theorem c9_witness :
    sampleAnim.run 2 = some ((1, 0), sampleAnimAfter3) ∧
    sampleAnimAfter3.sol = sampleAnim.sol ∧
    sampleAnimAfter3.trajectory.solution = sampleAnim.trajectory.solution := by
  have h : sampleAnim.run 2 = some ((1, 0), sampleAnimAfter3) := rfl
  have hc := c9_sampled_solution_never_mutated.2.2 sampleAnim 2 (1, 0)
    sampleAnimAfter3 h
  exact ⟨h, hc.1, hc.2⟩

end
